import Mathlib

set_option maxHeartbeats 1000000

namespace SponsorBot

/-! Shallow embedding of the gated-access ledger engine of `src/bot.py`.

The bot keeps three logical tables in a spreadsheet backing store
(Users, JoinRequests, Movies) mirrored by in-process caches, and the
handlers `start`, `check_subscription`, `handle_movie_code` and
`handle_buttons` mutate them.  The cache is a write-through mirror of
the sheet (every `add_user` / `update_user` writes both), so the ledger
is modelled as a single `List UserRecord` in sheet order.  Per-session
state (`context.user_data`) is modelled by `SessionData`.  Numeric cells
are stored as decimal strings in the sheet and parsed with the Python
builtin `int()` on every read; since every write is `str(<int value>)`, the
round-trip is modelled by keeping the fields as `Int`.  All string
helpers (`strip`, `isdigit`, `startswith`, `split`) are re-implemented
structurally over `List Char` so that every definition evaluates in the
kernel. -/

/-- Boolean test that the pattern list `p` is a prefix of `cs`. -/
def listStartsWith : List Char → List Char → Bool
  | [], _ => true
  | _ :: _, [] => false
  | p :: ps, c :: cs => if p = c then listStartsWith ps cs else false

/-- Suffix of `cs` that follows the first occurrence of the separator
`sep`, or `none` when `sep` does not occur (the Python expression
`text.split(sep)[1]` raising `IndexError` when there is one chunk). -/
def afterFirstSub (sep : List Char) : List Char → Option (List Char)
  | [] => none
  | c :: cs =>
    if listStartsWith sep (c :: cs) then some ((c :: cs).drop sep.length)
    else afterFirstSub sep cs

/-- Chunk of `cs` up to the next occurrence of the separator `sep`:
together with `afterFirstSub` this yields `text.split(sep)[1]`. -/
def untilNextSub (sep : List Char) : List Char → List Char
  | [] => []
  | c :: cs =>
    if listStartsWith sep (c :: cs) then []
    else c :: untilNextSub sep cs

/-- Accumulator loop of decimal parsing: fails on a non-digit. -/
def digitsToNatAux : List Char → Nat → Option Nat
  | [], acc => some acc
  | c :: cs, acc =>
    if c.isDigit then digitsToNatAux cs (acc * 10 + (c.toNat - ('0').toNat))
    else none

/-- Parse a nonempty all-digit list as a natural number. -/
def digitsToNat : List Char → Option Nat
  | [] => none
  | c :: cs => digitsToNatAux (c :: cs) 0

/-- The Python builtin `int(s)` on a stripped token: an optional sign followed by
decimal digits (whitespace/underscore tolerance of CPython is not
modelled; no claim depends on it). `ValueError` is `none`. -/
def pyInt (cs : List Char) : Option Int :=
  match cs with
  | '-' :: rest => (digitsToNat rest).map (fun n => -(n : Int))
  | '+' :: rest => (digitsToNat rest).map (fun n => (n : Int))
  | _ => (digitsToNat cs).map (fun n => (n : Int))

/-- The Python method `str.strip()`: drop whitespace from both ends. -/
def listTrim (cs : List Char) : List Char :=
  ((cs.dropWhile Char.isWhitespace).reverse.dropWhile Char.isWhitespace).reverse

/-- String form of `listTrim`. -/
def pyStrip (s : String) : String := ⟨listTrim s.data⟩

/-- The Python method `str.isdigit()`: nonempty and all digits. -/
def pyIsdigit (s : String) : Bool :=
  !s.data.isEmpty && s.data.all Char.isDigit

/-- The Python method `str.startswith(p)`. -/
def strStartsWith (s p : String) : Bool := listStartsWith p.data s.data

/-- Row of the Users sheet (`user_id, username, first_name,
search_queries, invited_users, subscribed`), with the numeric cells as
the integers the code parses them to. -/
structure UserRecord where
  user_id : Int
  username : String
  first_name : String
  search_queries : Int
  invited_users : Int
  subscribed : String
  deriving Repr, DecidableEq

/-- Keyword arguments of `update_user(user_id, **kwargs)`: each field is
`some v` when the call supplies it and `none` when the current sheet
value is kept. -/
structure UserPatch where
  username : Option String := none
  first_name : Option String := none
  search_queries : Option Int := none
  invited_users : Option Int := none
  subscribed : Option String := none
  deriving Repr, DecidableEq

/-- The `updates.update(kwargs)` merge of `update_user`: supplied fields
replace sheet values, `user_id` is always rewritten unchanged. -/
def applyPatch (r : UserRecord) (p : UserPatch) : UserRecord :=
  { r with
    username := p.username.getD r.username
    first_name := p.first_name.getD r.first_name
    search_queries := p.search_queries.getD r.search_queries
    invited_users := p.invited_users.getD r.invited_users
    subscribed := p.subscribed.getD r.subscribed }

/-- The `get_user_data` scan: first row whose `user_id` cell matches,
`None` when absent. -/
def get_user_data : List UserRecord → Int → Option UserRecord
  | [], _ => none
  | r :: rest, uid => if r.user_id = uid then some r else get_user_data rest uid

/-- The `add_user` append: a new row at the end of the Users sheet. -/
def add_user (users : List UserRecord) (uid : Int) (username first_name : String)
    (search_queries invited_users : Int) (subscribed : String) : List UserRecord :=
  users ++ [⟨uid, username, first_name, search_queries, invited_users, subscribed⟩]

/-- The `update_user` scan: rewrite the first row whose `user_id`
matches with the merged record and stop; when no row matches the sheet
is left unchanged (the code only logs a warning). -/
def update_user : List UserRecord → Int → UserPatch → List UserRecord
  | [], _, _ => []
  | r :: rest, uid, p =>
    if r.user_id = uid then applyPatch r p :: rest
    else r :: update_user rest uid p

/-- Per-session state held in `context.user_data`. -/
structure SessionData where
  awaiting_code : Bool
  subscription_confirmed : Bool
  referrer_id : Option Int
  deriving Repr, DecidableEq

/-- Insert into a Python dict modelled as an association list: replace
the binding when the key is present, append otherwise. -/
def dictInsert : List (String × String) → String → String → List (String × String)
  | [], k, v => [(k, v)]
  | (k', v') :: rest, k, v =>
    if k' = k then (k, v) :: rest else (k', v') :: dictInsert rest k v

/-- Lookup in a Python dict modelled as an association list. -/
def dictLookup : List (String × String) → String → Option String
  | [], _ => none
  | (k', v') :: rest, k => if k' = k then some v' else dictLookup rest k

/-- The `MOVIE_DICT` comprehension
`{row[0].strip(): row[1].strip() for row in all_values if row and len(row) >= 2}`
over the data rows of the movie sheet (header already skipped). -/
def buildMovieDict (rows : List (List String)) : List (String × String) :=
  rows.foldl
    (fun d row =>
      match row with
      | c :: t :: _ => dictInsert d (pyStrip c) (pyStrip t)
      | _ => d)
    []

/-- Stripped code cell of a movie-sheet row that the comprehension
keeps, `none` for rows it skips. -/
def rowCode : List String → Option String
  | c :: _ :: _ => some (pyStrip c)
  | _ => none

/-- The `reload_movies` refresh: it re-reads every data row of the
movie sheet and rebuilds `MOVIE_DICT` from scratch; the previous cache
value is discarded wholesale (the global is reassigned, nothing is
merged). -/
def reload_movies (_old : List (String × String)) (rows : List (List String)) :
    List (String × String) :=
  buildMovieDict rows

/-- The `find_movie_by_code` lookup in the cached `MOVIE_DICT`. -/
def find_movie_by_code (movies : List (String × String)) (code : String) :
    Option String :=
  dictLookup movies code

/-- Outcome of one `handle_movie_code` invocation, naming the branch the
handler returned from. -/
inductive CodeOutcome where
  | notAwaiting
  | notDigit
  | noUserData
  | quotaExhausted
  | found (title : String)
  | notFound
  deriving Repr, DecidableEq

/-- Whether the outcome reached the catalog lookup at all. -/
def CodeOutcome.didLookup : CodeOutcome → Bool
  | .found _ => true
  | .notFound => true
  | _ => false

/-- Result state of `handle_movie_code`. -/
structure MovieStep where
  session : SessionData
  users : List UserRecord
  outcome : CodeOutcome
  deriving Repr, DecidableEq

/-- The `handle_movie_code` handler: reject when search mode is off or
the stripped text is not numeric; then read the ledger; reject with
quota exhausted (clearing search mode) when `search_queries <= 0`;
otherwise clear search mode, look the code up in `MOVIE_DICT`, and debit
one credit only on a hit. -/
def handle_movie_code (session : SessionData) (users : List UserRecord)
    (movies : List (String × String)) (uid : Int) (codeRaw : String) : MovieStep :=
  if session.awaiting_code = false then ⟨session, users, .notAwaiting⟩
  else if pyIsdigit (pyStrip codeRaw) = false then ⟨session, users, .notDigit⟩
  else
    match get_user_data users uid with
    | none => ⟨session, users, .noUserData⟩
    | some u =>
      if u.search_queries ≤ 0 then
        ⟨{ session with awaiting_code := false }, users, .quotaExhausted⟩
      else
        match find_movie_by_code movies (pyStrip codeRaw) with
        | some title =>
          ⟨{ session with awaiting_code := false },
           update_user users uid { search_queries := some (u.search_queries - 1) },
           .found title⟩
        | none =>
          ⟨{ session with awaiting_code := false }, users, .notFound⟩

/-- Result of one `get_chat_member` gateway call for a channel: a
reported status string, or a raised exception. -/
inductive GatewayResult where
  | ok (status : String)
  | err
  deriving Repr, DecidableEq

/-- One loop iteration of `check_subscription` over a channel, given the
gateway result and the `has_sent_join_request` answer: satisfied on
status member/administrator/creator, else on a recorded join request;
a gateway exception lands in the `except` arm, which appends the channel
to the unsubscribed list without consulting the join-request ledger. -/
def channelSatisfied : GatewayResult → Bool → Bool
  | .ok s, hasReq =>
    decide (s = "member" ∨ s = "administrator" ∨ s = "creator") || hasReq
  | .err, _ => false

/-- The `unsubscribed_channels` list accumulated by the loop. -/
def unsubscribedChannels (checks : List (GatewayResult × Bool)) :
    List (GatewayResult × Bool) :=
  checks.filter (fun c => !channelSatisfied c.1 c.2)

/-- Result state of `check_subscription`. -/
structure CheckResult where
  session : SessionData
  users : List UserRecord
  deriving Repr, DecidableEq

/-- Cached-subscription test at the top of `check_subscription`:
`user_data and user_data.get("subscribed", "False") == "True"`. -/
def cachedSubscribed (users : List UserRecord) (uid : Int) : Bool :=
  match get_user_data users uid with
  | some u => decide (u.subscribed = "True")
  | none => false

/-- Referral-settlement block of `check_subscription`, entered after the
gate passed: `if referrer_id:` (Python truthiness, so a stored `0` is
skipped), read the ledger row of the referrer, and when it exists credit
`invited_users + 1` and `search_queries + 2` and delete the session
field `referrer_id`; when the referrer is unledgered nothing happens and the
link is kept. -/
def referralStep (session1 : SessionData) (users1 : List UserRecord) : CheckResult :=
  match session1.referrer_id with
  | some rid =>
    if rid = 0 then ⟨session1, users1⟩
    else
      match get_user_data users1 rid with
      | some r =>
        ⟨{ session1 with referrer_id := none },
         update_user users1 rid
           { invited_users := some (r.invited_users + 1)
             search_queries := some (r.search_queries + 2) }⟩
      | none => ⟨session1, users1⟩
  | none => ⟨session1, users1⟩

/-- The `check_subscription` callback: with a cached `subscribed ==
"True"` ledger row it only confirms the session flag; otherwise it runs
the per-channel loop, and when no channel is unsatisfied it confirms the
session flag, persists `subscribed="True"`, and settles the referral;
when some channel is unsatisfied the state is unchanged (only the prompt
is re-sent). `checks` pairs the gateway result of each configured
channel with its `has_sent_join_request` answer. -/
def check_subscription (session : SessionData) (users : List UserRecord)
    (uid : Int) (checks : List (GatewayResult × Bool)) : CheckResult :=
  if cachedSubscribed users uid then
    ⟨{ session with subscription_confirmed := true }, users⟩
  else if (unsubscribedChannels checks).isEmpty then
    referralStep { session with subscription_confirmed := true }
      (update_user users uid { subscribed := some "True" })
  else
    ⟨session, users⟩

/-- Outcome of the `/start` handler: early return on a self-referral, or
normal fall-through to registration. -/
inductive StartOutcome where
  | selfRejected
  | proceeded
  deriving Repr, DecidableEq

/-- Result state of `start`. -/
structure StartResult where
  session : SessionData
  users : List UserRecord
  outcome : StartOutcome
  deriving Repr, DecidableEq

/-- Referral argument of a `/start invite_<n>` message:
`int(update.message.text.split("invite_")[1])`, `none` on
`IndexError`/`ValueError`. -/
def parseInviteArg (text : String) : Option Int :=
  match afterFirstSub ("invite_").data text.data with
  | none => none
  | some rest => pyInt (untilNextSub ("invite_").data rest)

/-- Registration step of `start`: create the ledger row with 5 search
queries, 0 invited users and `subscribed="False"` on first contact, else
refresh `username`/`first_name` of the existing row. -/
def start_register (session : SessionData) (users : List UserRecord) (uid : Int)
    (username first_name : String) : StartResult :=
  match get_user_data users uid with
  | none =>
    ⟨session, add_user users uid username first_name 5 0 "False", .proceeded⟩
  | some _ =>
    ⟨session,
     update_user users uid { username := some username, first_name := some first_name },
     .proceeded⟩

/-- The `/start` handler: on a `/start invite_<n>` message parse the
referrer id; a self-referral returns before any registration; a distinct
referrer id is stored in the session (regardless of whether the user is
already ledgered); a malformed id is ignored; then register or refresh
the user. -/
def start (session : SessionData) (users : List UserRecord) (uid : Int)
    (username first_name text : String) : StartResult :=
  if strStartsWith text "/start invite_" then
    match parseInviteArg text with
    | some rid =>
      if rid = uid then ⟨session, users, .selfRejected⟩
      else start_register { session with referrer_id := some rid } users uid username first_name
    | none => start_register session users uid username first_name
  else start_register session users uid username first_name

/-- Reply-keyboard text of the search button. -/
def BUTTON_SEARCH : String := "🔍 Поиск фильма"

/-- Session effect of the `handle_buttons` handler: only the Search
branch with a confirmed subscription touches the session, setting
`awaiting_code`; every other branch (referral stats, help text, unknown
command, unconfirmed Search) only sends messages. -/
def handle_buttons (session : SessionData) (text : String) : SessionData :=
  if text = BUTTON_SEARCH then
    if session.subscription_confirmed then { session with awaiting_code := true }
    else session
  else session

/-- The row test of `has_sent_join_request` / `add_join_request`:
`row and len(row) >= 2 and row[0] == str(user_id) and row[1] == str(channel_id)`. -/
def joinMatches (uid cid : Int) (row : List String) : Bool :=
  match row with
  | a :: b :: _ => decide (a = toString uid) && decide (b = toString cid)
  | _ => false

/-- Existence scan of the JoinRequests sheet. -/
def pairExists (rows : List (List String)) (uid cid : Int) : Bool :=
  rows.any (joinMatches uid cid)

/-- The `add_join_request` writer: scan the sheet for the pair first and
return silently when found, else append the row. -/
def add_join_request (rows : List (List String)) (uid cid : Int) :
    List (List String) :=
  if pairExists rows uid cid then rows
  else rows ++ [[toString uid, toString cid]]

/-- Number of rows of the JoinRequests sheet holding the pair. -/
def countJoin (rows : List (List String)) (uid cid : Int) : Nat :=
  (rows.filter (joinMatches uid cid)).length

/-! Helper lemmas about the ledger scan and rewrite. -/

/-- Patching a row never changes its key cell. -/
theorem applyPatch_user_id (r : UserRecord) (p : UserPatch) :
    (applyPatch r p).user_id = r.user_id := rfl

/-- Rewriting the first matching row is what a subsequent scan for the
same id sees. -/
theorem get_update_self (users : List UserRecord) (uid : Int) (p : UserPatch)
    (r : UserRecord) (h : get_user_data users uid = some r) :
    get_user_data (update_user users uid p) uid = some (applyPatch r p) := by
  induction users with
  | nil => simp [get_user_data] at h
  | cons a rest ih =>
    by_cases hc : a.user_id = uid
    · simp only [get_user_data, hc, if_true] at h
      cases h
      simp [update_user, hc, get_user_data, applyPatch_user_id]
    · simp only [get_user_data, hc, if_false] at h
      simp [update_user, hc, get_user_data, ih h]

/-- Rewriting the row of one user leaves the scan of every other id
unchanged. -/
theorem get_update_other (users : List UserRecord) (uid uid' : Int)
    (p : UserPatch) (h : uid' ≠ uid) :
    get_user_data (update_user users uid p) uid' = get_user_data users uid' := by
  induction users with
  | nil => simp [update_user]
  | cons a rest ih =>
    by_cases hc : a.user_id = uid
    · have hne : (applyPatch a p).user_id ≠ uid' := by
        rw [applyPatch_user_id, hc]; exact fun hx => h hx.symm
      have hne' : a.user_id ≠ uid' := by rw [hc]; exact fun hx => h hx.symm
      simp only [update_user]
      rw [if_pos hc]
      simp only [get_user_data]
      rw [if_neg hne, if_neg hne']
    · simp [update_user, hc, get_user_data, ih]

/-- Updating an absent user is a silent no-op on the sheet. -/
theorem update_absent (users : List UserRecord) (uid : Int) (p : UserPatch)
    (h : get_user_data users uid = none) :
    update_user users uid p = users := by
  induction users with
  | nil => rfl
  | cons a rest ih =>
    by_cases hc : a.user_id = uid
    · simp [get_user_data, hc] at h
    · simp only [get_user_data, hc, if_false] at h
      simp [update_user, hc, ih h]

/-- Lookup after a dict insert: the inserted key reads back, others are
untouched. -/
theorem dictInsert_lookup (d : List (String × String)) (k v : String) (k' : String) :
    dictLookup (dictInsert d k v) k' =
      if k = k' then some v else dictLookup d k' := by
  induction d with
  | nil =>
    by_cases h : k = k' <;> simp [dictInsert, dictLookup, h]
  | cons a rest ih =>
    obtain ⟨ka, va⟩ := a
    by_cases hk : ka = k
    · subst hk
      by_cases h : ka = k' <;> simp [dictInsert, dictLookup, h]
    · by_cases h : ka = k'
      · subst h
        have : ¬ k = ka := fun hx => hk hx.symm
        simp [dictInsert, hk, dictLookup, this]
      · simp [dictInsert, hk, dictLookup, h, ih]

/-- A key is bound by the movie-dict fold exactly when some processed
row carries it: the bindings of the accumulator survive, and every kept row
adds its own. -/
theorem buildMovieDict_fold_mem (rows : List (List String))
    (acc : List (String × String)) (code : String) :
    (dictLookup
        (rows.foldl
          (fun d row =>
            match row with
            | c :: t :: _ => dictInsert d (pyStrip c) (pyStrip t)
            | _ => d)
          acc) code).isSome = true ↔
      ((dictLookup acc code).isSome = true ∨ ∃ row ∈ rows, rowCode row = some code) := by
  induction rows generalizing acc with
  | nil => simp
  | cons row rest ih =>
    simp only [List.foldl_cons, ih, List.mem_cons]
    constructor
    · rintro (hacc | ⟨r, hr, hc⟩)
      · match row, hacc with
        | c :: t :: _, hacc =>
          rw [dictInsert_lookup] at hacc
          by_cases he : pyStrip c = code
          · exact Or.inr ⟨c :: t :: _, Or.inl rfl, by simp [rowCode, he]⟩
          · simp only [he, if_false] at hacc
            exact Or.inl hacc
        | [], hacc => exact Or.inl hacc
        | [c], hacc => exact Or.inl hacc
      · exact Or.inr ⟨r, Or.inr hr, hc⟩
    · rintro (hacc | ⟨r, (rfl | hr), hc⟩)
      · match row with
        | c :: t :: _ =>
          left
          rw [dictInsert_lookup]
          by_cases he : pyStrip c = code <;> simp [he, hacc]
        | [] => exact Or.inl hacc
        | [c] => exact Or.inl hacc
      · match r, hc with
        | c :: t :: rest', hc =>
          simp only [rowCode, Option.some.injEq] at hc
          left
          rw [dictInsert_lookup, hc]
          simp
      · exact Or.inr ⟨r, hr, hc⟩

/-- Case split on a `handle_movie_code` step for a ledgered user:
either the Users sheet is untouched and a reached lookup had positive
balance, or the balance was positive, exactly one credit was debited,
and the lookup was reached. -/
theorem handle_movie_code_cases
    (session : SessionData) (users : List UserRecord)
    (movies : List (String × String)) (uid : Int) (codeRaw : String)
    (u : UserRecord) (h : get_user_data users uid = some u) :
    ((handle_movie_code session users movies uid codeRaw).users = users
      ∧ ((handle_movie_code session users movies uid codeRaw).outcome.didLookup = true →
          0 < u.search_queries))
    ∨ (0 < u.search_queries
      ∧ (handle_movie_code session users movies uid codeRaw).users =
          update_user users uid { search_queries := some (u.search_queries - 1) }
      ∧ (handle_movie_code session users movies uid codeRaw).outcome.didLookup = true) := by
  by_cases haw : session.awaiting_code = false
  · left
    constructor <;> simp [handle_movie_code, haw, CodeOutcome.didLookup]
  · by_cases hd : pyIsdigit (pyStrip codeRaw) = false
    · left
      constructor <;> simp [handle_movie_code, haw, hd, CodeOutcome.didLookup]
    · by_cases hq : u.search_queries ≤ 0
      · left
        constructor <;> simp [handle_movie_code, haw, hd, h, hq, CodeOutcome.didLookup]
      · cases hm : find_movie_by_code movies (pyStrip codeRaw) with
        | some title =>
          right
          refine ⟨lt_of_not_le hq, ?_, ?_⟩ <;>
            simp [handle_movie_code, haw, hd, h, hq, hm, CodeOutcome.didLookup]
        | none =>
          left
          refine ⟨?_, fun _ => lt_of_not_le hq⟩
          simp [handle_movie_code, haw, hd, h, hq, hm]

/-- C1: for every ledgered user, `search_queries` never becomes
negative across a `handle_movie_code` step: starting from a nonnegative
balance the stored balance stays nonnegative, a debit that would
underflow (balance at most 0) leaves the Users sheet completely
unchanged, and a catalog lookup is reached only when the balance is
strictly positive. -/
theorem c1_searchCredits_never_negative
    (session : SessionData) (users : List UserRecord)
    (movies : List (String × String)) (uid : Int) (codeRaw : String)
    (u : UserRecord) (h : get_user_data users uid = some u) :
    (0 ≤ u.search_queries →
      ∀ u', get_user_data (handle_movie_code session users movies uid codeRaw).users uid = some u' →
        0 ≤ u'.search_queries)
    ∧ (u.search_queries ≤ 0 →
        (handle_movie_code session users movies uid codeRaw).users = users)
    ∧ ((handle_movie_code session users movies uid codeRaw).outcome.didLookup = true →
        0 < u.search_queries) := by
  rcases handle_movie_code_cases session users movies uid codeRaw u h with
    ⟨he, hl⟩ | ⟨hpos, he, hl⟩
  · refine ⟨fun h0 u' hu' => ?_, fun _ => he, hl⟩
    rw [he, h] at hu'
    cases hu'
    exact h0
  · refine ⟨fun h0 u' hu' => ?_, fun hle => absurd hle (not_le.mpr hpos),
            fun _ => hpos⟩
    rw [he, get_update_self users uid _ u h] at hu'
    cases hu'
    simp only [applyPatch, Option.getD]
    omega

/-- Witness for C1 at a concrete state: user 1 holds 5 credits and
looks up a known code. -/
theorem c1_searchCredits_never_negative_witness :
    get_user_data [⟨1, "u", "f", 5, 0, "True"⟩] 1 = some ⟨1, "u", "f", 5, 0, "True"⟩
    ∧ ((0 : Int) ≤ 5 →
        ∀ u', get_user_data (handle_movie_code ⟨true, true, none⟩
            [⟨1, "u", "f", 5, 0, "True"⟩] [("42", "Inception")] 1 "42").users 1 = some u' →
          0 ≤ u'.search_queries) :=
  ⟨by decide,
   (c1_searchCredits_never_negative ⟨true, true, none⟩ [⟨1, "u", "f", 5, 0, "True"⟩]
      [("42", "Inception")] 1 "42" ⟨1, "u", "f", 5, 0, "True"⟩ (by decide)).1⟩

/-- C2: for a verified user in search mode with positive credits, a code
absent from the movie catalog yields the not-found outcome and leaves
the Users sheet (hence the stored `search_queries`) unchanged. -/
theorem c2_miss_does_not_debit
    (session : SessionData) (users : List UserRecord)
    (movies : List (String × String)) (uid : Int) (codeRaw : String)
    (u : UserRecord)
    (haw : session.awaiting_code = true)
    (hd : pyIsdigit (pyStrip codeRaw) = true)
    (h : get_user_data users uid = some u)
    (hq : 0 < u.search_queries)
    (hm : find_movie_by_code movies (pyStrip codeRaw) = none) :
    (handle_movie_code session users movies uid codeRaw).outcome = .notFound
    ∧ (handle_movie_code session users movies uid codeRaw).users = users := by
  have haw' : ¬ session.awaiting_code = false := by simp [haw]
  have hd' : ¬ pyIsdigit (pyStrip codeRaw) = false := by simp [hd]
  have hq' : ¬ u.search_queries ≤ 0 := not_le.mpr hq
  simp only [handle_movie_code, haw', hd', if_false, h, hq', hm]
  exact ⟨rfl, rfl⟩

/-- Witness for C2 at a concrete state: a catalog that only knows code
42 is asked for code 999. -/
theorem c2_miss_does_not_debit_witness :
    (handle_movie_code ⟨true, true, none⟩ [⟨1, "u", "f", 4, 0, "True"⟩]
        [("42", "Inception")] 1 "999").outcome = .notFound
    ∧ (handle_movie_code ⟨true, true, none⟩ [⟨1, "u", "f", 4, 0, "True"⟩]
        [("42", "Inception")] 1 "999").users = [⟨1, "u", "f", 4, 0, "True"⟩] :=
  c2_miss_does_not_debit ⟨true, true, none⟩ [⟨1, "u", "f", 4, 0, "True"⟩]
    [("42", "Inception")] 1 "999" ⟨1, "u", "f", 4, 0, "True"⟩
    rfl (by decide) (by decide) (by decide) (by decide)

/-- Cached branch of `check_subscription`: with a ledger row already
marked subscribed the handler only confirms the session flag. -/
theorem check_subscription_cached (session : SessionData) (users : List UserRecord)
    (uid : Int) (checks : List (GatewayResult × Bool))
    (h : cachedSubscribed users uid = true) :
    check_subscription session users uid checks =
      ⟨{ session with subscription_confirmed := true }, users⟩ := by
  simp [check_subscription, h]

/-- C3: when a referred ledgered user (not yet marked subscribed)
passes the gate with a live referral link to a distinct ledgered
referrer, `check_subscription` credits the referrer exactly once
(`invited_users + 1`, `search_queries + 2`), deletes the referral link
held in the session, and a second `check_subscription` invocation for the same
user — with any gateway results — changes no ledger row. -/
theorem c3_referral_settled_once
    (session : SessionData) (users : List UserRecord) (uid rid : Int)
    (checks checks2 : List (GatewayResult × Bool)) (u r : UserRecord)
    (hu : get_user_data users uid = some u)
    (hsub : u.subscribed ≠ "True")
    (href : session.referrer_id = some rid)
    (hrid0 : rid ≠ 0)
    (hne : rid ≠ uid)
    (hr : get_user_data users rid = some r)
    (hpass : (unsubscribedChannels checks).isEmpty = true) :
    get_user_data (check_subscription session users uid checks).users rid =
      some { r with invited_users := r.invited_users + 1,
                    search_queries := r.search_queries + 2 }
    ∧ (check_subscription session users uid checks).session.referrer_id = none
    ∧ (check_subscription (check_subscription session users uid checks).session
         (check_subscription session users uid checks).users uid checks2).users =
        (check_subscription session users uid checks).users := by
  have hcached : cachedSubscribed users uid = false := by
    simp [cachedSubscribed, hu, hsub]
  have husers1 : get_user_data (update_user users uid { subscribed := some "True" }) rid
      = some r := by
    rw [get_update_other users uid rid _ hne, hr]
  have hres1 : check_subscription session users uid checks =
      ⟨{ session with subscription_confirmed := true, referrer_id := none },
       update_user (update_user users uid { subscribed := some "True" }) rid
         { invited_users := some (r.invited_users + 1)
           search_queries := some (r.search_queries + 2) }⟩ := by
    simp [check_subscription, hcached, hpass, referralStep, href, hrid0, husers1]
  have hsub2 : cachedSubscribed (check_subscription session users uid checks).users uid
      = true := by
    rw [hres1]
    unfold cachedSubscribed
    rw [get_update_other _ rid uid _ (Ne.symm hne),
        get_update_self users uid _ u hu]
    simp [applyPatch]
  refine ⟨?_, ?_, ?_⟩
  · rw [hres1]
    rw [get_update_self _ rid _ r husers1]
    simp [applyPatch]
  · rw [hres1]
  · rw [check_subscription_cached _ _ _ checks2 hsub2]

/-- Witness for C3 at a concrete state: user 1 was referred by ledgered
user 2 and passes a one-channel gate. -/
theorem c3_referral_settled_once_witness :
    get_user_data (check_subscription ⟨false, false, some 2⟩
        [⟨1, "u", "f", 5, 0, "False"⟩, ⟨2, "v", "g", 3, 4, "True"⟩] 1
        [(.ok "member", false)]).users 2 =
      some ⟨2, "v", "g", 5, 5, "True"⟩
    ∧ (check_subscription ⟨false, false, some 2⟩
        [⟨1, "u", "f", 5, 0, "False"⟩, ⟨2, "v", "g", 3, 4, "True"⟩] 1
        [(.ok "member", false)]).session.referrer_id = none := by
  have h := c3_referral_settled_once ⟨false, false, some 2⟩
    [⟨1, "u", "f", 5, 0, "False"⟩, ⟨2, "v", "g", 3, 4, "True"⟩] 1 2
    [(.ok "member", false)] [(.ok "member", false)]
    ⟨1, "u", "f", 5, 0, "False"⟩ ⟨2, "v", "g", 3, 4, "True"⟩
    (by decide) (by decide) rfl (by decide) (by decide) (by decide) (by decide)
  exact ⟨h.1, h.2.1⟩

/-- Registration never touches the session state. -/
theorem start_register_session (s : SessionData) (users : List UserRecord)
    (uid : Int) (username first_name : String) :
    (start_register s users uid username first_name).session = s := by
  unfold start_register
  cases get_user_data users uid <;> rfl

/-- Appending a fresh row for an id absent from the sheet makes the
scan find that row. -/
theorem get_user_data_append (users : List UserRecord) (uid : Int)
    (r : UserRecord) (h : get_user_data users uid = none) (hr : r.user_id = uid) :
    get_user_data (users ++ [r]) uid = some r := by
  induction users with
  | nil => simp [get_user_data, hr]
  | cons a rest ih =>
    by_cases hc : a.user_id = uid
    · simp [get_user_data, hc] at h
    · simp only [get_user_data, hc, if_false] at h
      simp [get_user_data, hc, ih h]

/-- Counterexample to C4 as stated: user 1 is already ledgered, yet a
`/start invite_2` message still stores the referral link in the
session — registration is not restricted to first contact. -/
theorem c4_counterexample :
    get_user_data [⟨1, "u", "f", 5, 0, "False"⟩] 1 ≠ none
    ∧ (start ⟨false, false, none⟩ [⟨1, "u", "f", 5, 0, "False"⟩] 1 "u" "f"
        "/start invite_2").session.referrer_id = some 2 := by
  decide

/-- C4 as amended: on a `/start invite_<rid>` message, a self-referral
(`rid = uid`) is rejected before any registration — session and ledger
are unchanged, so no account is ever credited — while any distinct
referrer id is stored in the session, with no first-contact restriction. -/
theorem c4_registerReferral_amended
    (session : SessionData) (users : List UserRecord) (uid rid : Int)
    (username first_name text : String)
    (hs : strStartsWith text "/start invite_" = true)
    (hp : parseInviteArg text = some rid) :
    (rid = uid →
      start session users uid username first_name text = ⟨session, users, .selfRejected⟩)
    ∧ (rid ≠ uid →
        (start session users uid username first_name text).session.referrer_id = some rid) := by
  constructor
  · intro he
    simp [start, hs, hp, he]
  · intro hne
    simp [start, hs, hp, hne, start_register_session]

/-- Witness for C4's amended statement at a concrete self-referral and a
concrete foreign referral. -/
theorem c4_registerReferral_amended_witness :
    start ⟨false, false, none⟩ [] 1 "u" "f" "/start invite_1" = ⟨⟨false, false, none⟩, [], .selfRejected⟩
    ∧ (start ⟨false, false, none⟩ [] 1 "u" "f" "/start invite_2").session.referrer_id = some 2 :=
  ⟨(c4_registerReferral_amended ⟨false, false, none⟩ [] 1 1 "u" "f" "/start invite_1"
      (by decide) (by decide)).1 rfl,
   (c4_registerReferral_amended ⟨false, false, none⟩ [] 1 2 "u" "f" "/start invite_2"
      (by decide) (by decide)).2 (by decide)⟩

/-- Counterexample to C5 as stated: user 1's very first `/start` is a
self-referral link, and the handler returns before registration — no
ledger row is created at all. -/
theorem c5_counterexample :
    get_user_data (start ⟨false, false, none⟩ [] 1 "u" "f" "/start invite_1").users 1 = none := by
  decide

/-- C5 as amended: a first `/start` whose text is not a self-referral
invite creates the ledger row with 5 search queries, 0 invited users and
`subscribed="False"`; a self-referral `/start` aborts before
registration. -/
theorem c5_first_contact_defaults
    (session : SessionData) (users : List UserRecord) (uid : Int)
    (username first_name text : String)
    (habs : get_user_data users uid = none)
    (hns : strStartsWith text "/start invite_" = false ∨ parseInviteArg text ≠ some uid) :
    get_user_data (start session users uid username first_name text).users uid =
      some ⟨uid, username, first_name, 5, 0, "False"⟩ := by
  have hreg : ∀ s : SessionData,
      get_user_data (start_register s users uid username first_name).users uid =
        some ⟨uid, username, first_name, 5, 0, "False"⟩ := by
    intro s
    simp only [start_register, habs, add_user]
    exact get_user_data_append users uid _ habs rfl
  cases hsw : strStartsWith text "/start invite_" with
  | false =>
    simp only [start, hsw, Bool.false_eq_true, if_false]
    exact hreg session
  | true =>
    cases hp : parseInviteArg text with
    | none =>
      simp only [start, hsw, if_true, hp]
      exact hreg session
    | some rid =>
      have hne : ¬ rid = uid := by
        rcases hns with h1 | h2
        · rw [hsw] at h1; cases h1
        · intro he; exact h2 (he ▸ hp)
      simp only [start, hsw, if_true, hp, hne, if_false]
      exact hreg _

/-- Witness for C5's amended statement: an unledgered user sends a plain
`/start`. -/
theorem c5_first_contact_defaults_witness :
    get_user_data (start ⟨false, false, none⟩ [] 1 "u" "f" "/start").users 1 =
      some ⟨1, "u", "f", 5, 0, "False"⟩ :=
  c5_first_contact_defaults ⟨false, false, none⟩ [] 1 "u" "f" "/start"
    rfl (Or.inl (by decide))

/-- Counterexample to C6 as stated: a movie present in the cache but
absent from the currently fetched rows is evicted by `reload_movies` —
the refresh rebuilds the dictionary from the full fetched table instead
of merging new rows into the existing map. -/
theorem c6_counterexample :
    dictLookup [("1", "A")] "1" = some "A"
    ∧ dictLookup (reload_movies [("1", "A")] [["2", "B"]]) "1" = none := by
  decide

/-- C6 as amended: `reload_movies` re-reads every data row of the movie
sheet and rebuilds the cache from scratch — a code is in the refreshed
cache exactly when some fetched row carries it, independently of the
previous cache contents (no `lastRow` tail-fetch, no merge, prior
entries are evicted). -/
theorem c6_reload_is_full_rebuild (old : List (String × String))
    (rows : List (List String)) (code : String) :
    (dictLookup (reload_movies old rows) code).isSome = true ↔
      ∃ row ∈ rows, rowCode row = some code := by
  unfold reload_movies buildMovieDict
  rw [buildMovieDict_fold_mem]
  simp [dictLookup]

/-- Witness for C6's amended statement at one concrete fetched row. -/
theorem c6_reload_is_full_rebuild_witness :
    (dictLookup (reload_movies [("1", "A")] [["7", "T"]]) "7").isSome = true :=
  (c6_reload_is_full_rebuild [("1", "A")] [["7", "T"]] "7").mpr
    ⟨["7", "T"], by decide, by decide⟩

/-- Counterexample to C7 as stated: updating a user absent from the
ledger does not create a record — the sheet stays empty and a subsequent
scan still finds nothing. -/
theorem c7_counterexample :
    get_user_data (update_user [] 1 { username := some "x" }) 1 = none := by
  decide

/-- C7 as amended: `update_user` merges the supplied partial update into
the first matching row when the user exists, but for an absent user it
is a silent no-op (only a warning is logged) — no record is created. -/
theorem c7_update_merges_no_create (users : List UserRecord) (uid : Int)
    (p : UserPatch) :
    (get_user_data users uid = none → update_user users uid p = users)
    ∧ (∀ r, get_user_data users uid = some r →
        get_user_data (update_user users uid p) uid = some (applyPatch r p)) :=
  ⟨update_absent users uid p, fun r h => get_update_self users uid p r h⟩

/-- Witness for C7's amended statement on the empty sheet and on a
one-row sheet. -/
theorem c7_update_merges_no_create_witness :
    update_user [] 1 { username := some "x" } = []
    ∧ get_user_data (update_user [⟨1, "u", "f", 5, 0, "False"⟩] 1
        { username := some "x" }) 1 =
      some (applyPatch ⟨1, "u", "f", 5, 0, "False"⟩ { username := some "x" }) :=
  ⟨(c7_update_merges_no_create [] 1 { username := some "x" }).1 rfl,
   (c7_update_merges_no_create [⟨1, "u", "f", 5, 0, "False"⟩] 1
      { username := some "x" }).2 ⟨1, "u", "f", 5, 0, "False"⟩ (by decide)⟩

/-- A pair occurs zero times in the JoinRequests sheet exactly when the
existence scan misses. -/
theorem countJoin_zero_iff (rows : List (List String)) (uid cid : Int) :
    countJoin rows uid cid = 0 ↔ pairExists rows uid cid = false := by
  induction rows with
  | nil => simp [countJoin, pairExists]
  | cons a rest ih =>
    by_cases hf : joinMatches uid cid a = true
    · simp [countJoin, pairExists, List.filter_cons, hf]
    · simp only [countJoin, pairExists, List.filter_cons, hf, List.any_cons] at *
      simp [hf, ih]

/-- C8: `add_join_request` is an idempotent insert — a second call with
identical arguments is a no-op, and starting from a sheet without the
pair, two identical calls leave exactly one matching row (the existence
scan runs before the append, so no duplicate row is written). -/
theorem c8_join_request_idempotent (rows : List (List String)) (uid cid : Int) :
    add_join_request (add_join_request rows uid cid) uid cid =
      add_join_request rows uid cid
    ∧ (countJoin rows uid cid = 0 →
        countJoin (add_join_request (add_join_request rows uid cid) uid cid) uid cid = 1) := by
  by_cases hex : pairExists rows uid cid = true
  · have hone : add_join_request rows uid cid = rows := by
      simp [add_join_request, hex]
    constructor
    · rw [hone]; exact hone
    · intro h0
      rw [countJoin_zero_iff] at h0
      rw [h0] at hex
      cases hex
  · have hone : add_join_request rows uid cid = rows ++ [[toString uid, toString cid]] := by
      simp [add_join_request, hex]
    have hmatch : joinMatches uid cid [toString uid, toString cid] = true := by
      simp [joinMatches]
    have hex2 : pairExists (rows ++ [[toString uid, toString cid]]) uid cid = true := by
      simp [pairExists, List.any_append, hmatch]
    have htwo : add_join_request (rows ++ [[toString uid, toString cid]]) uid cid =
        rows ++ [[toString uid, toString cid]] := by
      simp [add_join_request, hex2]
    constructor
    · rw [hone, htwo]
    · intro h0
      rw [hone, htwo]
      simp only [countJoin, List.filter_append] at *
      simp [List.filter_cons, hmatch, List.length_eq_zero.mp h0]

/-- Witness for C8 at a concrete pair on the empty sheet. -/
theorem c8_join_request_idempotent_witness :
    add_join_request (add_join_request [] 1 2) 1 2 = add_join_request [] 1 2
    ∧ countJoin (add_join_request (add_join_request [] 1 2) 1 2) 1 2 = 1 :=
  ⟨(c8_join_request_idempotent [] 1 2).1,
   (c8_join_request_idempotent [] 1 2).2 rfl⟩

/-- The accumulated unsubscribed list is empty exactly when every
channel check was satisfied. -/
theorem unsubscribedChannels_isEmpty_iff (checks : List (GatewayResult × Bool)) :
    (unsubscribedChannels checks).isEmpty = true ↔
      ∀ c ∈ checks, channelSatisfied c.1 c.2 = true := by
  simp [unsubscribedChannels, List.isEmpty_iff, List.filter_eq_nil_iff]

/-- C9: a channel with a gateway-reported status is satisfied exactly
when the status is member, administrator or creator, or a join request
is recorded; an errored gateway call is never satisfied (fail-closed);
the overall gate passes exactly when every configured channel is
satisfied, so it can never pass while some check errored. -/
theorem c9_gate_fail_closed (checks : List (GatewayResult × Bool)) :
    (∀ s q, channelSatisfied (.ok s) q = true ↔
        (s = "member" ∨ s = "administrator" ∨ s = "creator" ∨ q = true))
    ∧ (∀ q, channelSatisfied .err q = false)
    ∧ ((unsubscribedChannels checks).isEmpty = true ↔
        ∀ c ∈ checks, channelSatisfied c.1 c.2 = true)
    ∧ (∀ q, (GatewayResult.err, q) ∈ checks →
        (unsubscribedChannels checks).isEmpty = false) := by
  refine ⟨?_, fun q => rfl, unsubscribedChannels_isEmpty_iff checks, ?_⟩
  · intro s q
    simp only [channelSatisfied, Bool.or_eq_true, decide_eq_true_eq]
    tauto
  · intro q hq
    cases he : (unsubscribedChannels checks).isEmpty with
    | false => rfl
    | true =>
      have := (unsubscribedChannels_isEmpty_iff checks).mp he (.err, q) hq
      cases this

/-- Witness for C9 at a concrete check list holding one errored
channel. -/
theorem c9_gate_fail_closed_witness :
    (unsubscribedChannels [(.ok "member", false), (.err, true)]).isEmpty = false :=
  (c9_gate_fail_closed [(.ok "member", false), (.err, true)]).2.2.2 true (by decide)

/-- The referral-settlement block never touches the `awaiting_code`
flag. -/
theorem referralStep_session_awaiting (s : SessionData) (users1 : List UserRecord) :
    (referralStep s users1).session.awaiting_code = s.awaiting_code := by
  unfold referralStep
  cases hrid : s.referrer_id with
  | none => rfl
  | some rid =>
    by_cases h0 : rid = 0
    · simp [h0]
    · cases hr : get_user_data users1 rid <;> simp [h0, hr]

/-- C10: search mode admits at most one code attempt — a numeric code
arriving with `awaiting_code` off is rejected with all state (session,
ledger) unchanged before credits are even read; `handle_movie_code`
never turns the flag on; once the quota check passes the flag is cleared
regardless of hit or miss; `handle_buttons` turns it on only for the
Search button with a confirmed subscription; and neither
`check_subscription` nor `start` ever changes the flag. -/
theorem c10_one_attempt_per_activation
    (session : SessionData) (users : List UserRecord)
    (movies : List (String × String)) (uid : Int) (codeRaw text : String) :
    (session.awaiting_code = false →
      handle_movie_code session users movies uid codeRaw = ⟨session, users, .notAwaiting⟩)
    ∧ ((handle_movie_code session users movies uid codeRaw).session.awaiting_code = true →
        session.awaiting_code = true)
    ∧ (∀ u, session.awaiting_code = true →
        pyIsdigit (pyStrip codeRaw) = true →
        get_user_data users uid = some u →
        0 < u.search_queries →
        (handle_movie_code session users movies uid codeRaw).session.awaiting_code = false)
    ∧ ((handle_buttons session text).awaiting_code = true →
        session.awaiting_code = true ∨
          (text = BUTTON_SEARCH ∧ session.subscription_confirmed = true))
    ∧ (∀ checks, (check_subscription session users uid checks).session.awaiting_code =
        session.awaiting_code)
    ∧ (∀ username first_name,
        (start session users uid username first_name text).session.awaiting_code =
          session.awaiting_code) := by
  refine ⟨?_, ?_, ?_, ?_, ?_, ?_⟩
  · intro haw
    simp [handle_movie_code, haw]
  · intro hres
    cases haw : session.awaiting_code with
    | true => rfl
    | false =>
      simp [handle_movie_code, haw] at hres
  · intro u haw hd hu hq
    have haw' : ¬ session.awaiting_code = false := by simp [haw]
    have hd' : ¬ pyIsdigit (pyStrip codeRaw) = false := by simp [hd]
    have hq' : ¬ u.search_queries ≤ 0 := not_le.mpr hq
    cases hm : find_movie_by_code movies (pyStrip codeRaw) <;>
      simp [handle_movie_code, haw', hd', hu, hq', hm]
  · intro h
    by_cases ht : text = BUTTON_SEARCH
    · by_cases hs : session.subscription_confirmed = true
      · exact Or.inr ⟨ht, hs⟩
      · left
        simp [handle_buttons, ht, hs] at h
        exact h
    · left
      simp [handle_buttons, ht] at h
      exact h
  · intro checks
    by_cases hc : cachedSubscribed users uid = true
    · rw [check_subscription_cached _ _ _ _ hc]
    · by_cases hp : (unsubscribedChannels checks).isEmpty = true
      · simp only [check_subscription, hc, Bool.false_eq_true, if_false, hp, if_true]
        rw [referralStep_session_awaiting]
      · simp [check_subscription, hc, hp]
  · intro username first_name
    cases hsw : strStartsWith text "/start invite_" with
    | false =>
      simp [start, hsw, start_register_session]
    | true =>
      cases hp : parseInviteArg text with
      | none => simp [start, hsw, hp, start_register_session]
      | some rid =>
        by_cases hne : rid = uid
        · simp [start, hsw, hp, hne]
        · simp [start, hsw, hp, hne, start_register_session]

/-- Witness for C10 at a concrete state with search mode off. -/
theorem c10_one_attempt_per_activation_witness :
    handle_movie_code ⟨false, false, none⟩ [] [] 1 "42" =
      ⟨⟨false, false, none⟩, [], .notAwaiting⟩ :=
  (c10_one_attempt_per_activation ⟨false, false, none⟩ [] [] 1 "42" "x").1 rfl

end SponsorBot
